import Mathlib

/-!
Shallow embedding of `ucan-key-support/src/web_crypto.rs`
(`WebCryptoRsaKeyMaterial` and its `KeyMaterial` implementation).

The browser key handles (`web_sys::CryptoKey`) are opaque foreign objects,
so they are modelled by an arbitrary type parameter `K`.  The SubtleCrypto
provider is modelled as a record of (possibly failing) operations; every
provider call in the Rust source can fail at two points — the synchronous
call itself can throw a JS error, and the returned promise can reject —
and can additionally resolve to a value of an unexpected JS type.  Each
operation of the key material is translated as a pure function of the
instance, the ambient JS global state and its arguments, returning both
the Rust `Result` (with panics made explicit) and the ordered list of
provider calls it issued.
-/

set_option autoImplicit false

universe u

/-- Result of a single provider (SubtleCrypto) operation: the synchronous
call can throw, the awaited promise can reject, or a value is produced.
The string carries the `{:?}` debug formatting of the JS error. -/
inductive ProviderResult (α : Type u) where
  | success (value : α)
  | syncFault (detail : String)
  | asyncFault (detail : String)
  deriving DecidableEq, Repr

/-- Value resolved by `SubtleCrypto::export_key`: either an `ArrayBuffer`
(whose contents we read as bytes, each `< 256` in reality, merely `Nat`
here) or a JS value of some other type. -/
inductive ExportValue where
  | arrayBuffer (bytes : List Nat)
  | notArrayBuffer (detail : String)
  deriving DecidableEq, Repr

/-- Value resolved by `SubtleCrypto::verify`: a JS `Boolean` or a value of
some other type (which `dyn_into::<Boolean>` rejects). -/
inductive VerifyValue where
  | jsBoolean (b : Bool)
  | notBoolean (detail : String)
  deriving DecidableEq, Repr

/-- The object resolved by `SubtleCrypto::generate_key`; `Reflect::get` on
its `publicKey` / `privateKey` properties can fail with a JS error. -/
structure CryptoKeyPairObj (K : Type) where
  publicKeyProp : Except String K
  privateKeyProp : Except String K

/-- Algorithm dictionary built by `generate` (fields set via
`Reflect::set`; setting fields on a fresh plain `Object` cannot fail, so
the dictionary is modelled as a pure record). -/
structure GenAlgorithm where
  name : String
  modulusLength : Nat
  publicExponent : List Nat
  hash : String
  deriving DecidableEq, Repr

/-- Algorithm dictionary built by `sign` and `verify`. -/
structure SignAlgorithm where
  name : String
  saltLength : Nat
  deriving DecidableEq, Repr

/-- The SubtleCrypto provider interface, as used by the source file. -/
structure SubtleCrypto (K : Type) where
  generate_key : GenAlgorithm → Bool → List String → ProviderResult (CryptoKeyPairObj K)
  export_key : String → K → ProviderResult ExportValue
  sign : SignAlgorithm → K → List Nat → ProviderResult (List Nat)
  verify : SignAlgorithm → K → List Nat → List Nat → ProviderResult VerifyValue

/-- Ambient JS global state, as probed by `get_subtle_crypto`:
`Reflect::get(global, "crypto")` can yield a `Crypto` (from which
`.subtle()` is taken), a value that is not a `Crypto` (then
`dyn_into::<Crypto>().expect("Unexpected API")` panics), or an error. -/
inductive CryptoGlobal (K : Type) where
  | available (subtle : SubtleCrypto K)
  | notCrypto
  | inaccessible

/-- Error kinds produced by the source file.  Every error the Rust code
returns is an `anyhow::Error`; the kinds are distinguished by the distinct
messages the code attaches, matching the taxonomy of the spec:
`providerError` carries the debug-formatted provider fault (and also the
fixed message for an unreachable WebCrypto API), `noPrivateKey` is
`anyhow!("No private key configured")`, `verificationFailed` is
`anyhow!("Could not verify signature")`, and `encodingError` is the error
propagated from `RsaPublicKey::from_public_key_der`. -/
inductive UcanError where
  | providerError (detail : String)
  | noPrivateKey
  | verificationFailed
  | encodingError (detail : String)
  deriving DecidableEq, Repr

/-- Outcome of running one of the Rust functions: an `Ok` value, a typed
`Err`, or a panic (`expect`) with its message. -/
inductive Outcome (α : Type u) where
  | ok (value : α)
  | err (e : UcanError)
  | panicked (msg : String)
  deriving DecidableEq, Repr

/-- One provider call, recorded with the exact arguments handed to the
SubtleCrypto API (for `verify` the source passes the signature before the
payload). -/
inductive ProviderCall (K : Type) where
  | generateKeyCall (alg : GenAlgorithm) (extractable : Bool) (uses : List String)
  | exportKeyCall (format : String) (key : K)
  | signCall (alg : SignAlgorithm) (key : K) (payload : List Nat)
  | verifyCall (alg : SignAlgorithm) (key : K) (signature : List Nat) (payload : List Nat)
  deriving DecidableEq, Repr

/-- Modelled from the spec: `RSA_ALGORITHM` is defined in `crate::rsa`,
which is not part of the sampled source; per §4.4 it is the single fixed
literal naming the RSA signature family, embedded verbatim in token
headers.  Its concrete value is immaterial to the claims; what matters is
that it is one constant shared by `get_jwt_algorithm_name`, `sign`,
`verify` and `generate`. -/
def RSA_ALGORITHM : String := "RS256"

/-- Big-endian byte-sequence to natural number. -/
def beBytesToNat (bytes : List Nat) : Nat :=
  bytes.foldl (fun acc b => acc * 256 + b) 0

/-- Natural number to big-endian bytes (minimal length, `[0]` for zero). -/
def natToBeBytes (n : Nat) : List Nat :=
  if _h : n < 256 then [n]
  else natToBeBytes (n / 256) ++ [n % 256]
termination_by n
decreasing_by exact Nat.div_lt_self (by omega) (by omega)

/-- Modelled from the spec: the parsed RSA public key structure produced by
the external `rsa` crate (modulus and public exponent). -/
structure RsaPublicKey where
  n : Nat
  e : Nat
  deriving DecidableEq, Repr

/-- Modelled from the spec: `RsaPublicKey::from_public_key_der` of the
external `rsa` crate — a deterministic parse of the DER-encoded
subject-public-key-info bytes that fails on any input not encoding a valid
RSA public key structure (§4.3 edge case).  The DER grammar is abbreviated
to a SEQUENCE tag followed by two INTEGER fields. -/
def from_public_key_der (bytes : List Nat) : Except String RsaPublicKey :=
  match bytes with
  | 0x30 :: 0x02 :: nlen :: rest =>
    if nlen ≤ rest.length ∧ nlen ≠ 0 then
      match rest.drop nlen with
      | 0x02 :: elen :: erest =>
        if elen = erest.length ∧ elen ≠ 0 then
          Except.ok { n := beBytesToNat (rest.take nlen), e := beBytesToNat erest }
        else Except.error "malformed RSA public key"
      | _ => Except.error "malformed RSA public key"
    else Except.error "malformed RSA public key"
  | _ => Except.error "malformed RSA public key"

/-- The base58btc alphabet used by the multibase `z` encoding. -/
def BASE58_ALPHABET : List Char :=
  "123456789ABCDEFGHJKLMNPQRSTUVWXYZabcdefghijkmnopqrstuvwxyz".toList

/-- Digits of `n` in base 58, most significant first. -/
def base58Digits (n : Nat) : List Nat :=
  if _h : n < 58 then [n]
  else base58Digits (n / 58) ++ [n % 58]
termination_by n
decreasing_by exact Nat.div_lt_self (by omega) (by omega)

/-- Base58btc encoding of a byte string: each leading zero byte becomes
`1`, the remaining value is written in base 58. -/
def base58Encode (bytes : List Nat) : String :=
  let zeros := (bytes.takeWhile (fun b => b == 0)).length
  let value := beBytesToNat bytes
  let digits := if value = 0 then [] else base58Digits value
  String.mk (List.replicate zeros '1' ++ digits.map (fun d => BASE58_ALPHABET.getD d '?'))

/-- Modelled from the spec: the DER re-encoding of the raw RSA public key
structure applied by identifier derivation before tagging (§4.3) — a
deterministic serialization of modulus and exponent. -/
def RsaPublicKey.encode (pk : RsaPublicKey) : List Nat :=
  let nb := natToBeBytes pk.n
  let eb := natToBeBytes pk.e
  0x30 :: (0x02 :: nb.length :: nb) ++ (0x02 :: eb.length :: eb)

/-- Modelled from the spec: `RsaKeyMaterial::get_did` of `crate::rsa`
(not part of the sampled source).  Per §4.3: re-encode the parsed RSA
public key, prepend the fixed multicodec tag reserved for RSA public keys
(the varint of 0x1205), base-encode with the self-describing multibase
(base58btc, marker `z`), and prefix the decentralized-identifier scheme
marker.  A deterministic function of the parsed key alone. -/
def RsaKeyMaterial.get_did (pk : RsaPublicKey) : String :=
  "did:key:z" ++ base58Encode (0x85 :: 0x24 :: pk.encode)

/-- The key material: `pub struct WebCryptoRsaKeyMaterial(pub CryptoKey,
pub Option<CryptoKey>)` — field 0 is the public key handle, field 1 the
optional private key handle. -/
structure WebCryptoRsaKeyMaterial (K : Type) where
  publicKey : K
  privateKey : Option K
  deriving DecidableEq, Repr

/-- `WebCryptoRsaKeyMaterial::get_subtle_crypto`. -/
def get_subtle_crypto {K : Type} : CryptoGlobal K → Outcome (SubtleCrypto K)
  | CryptoGlobal.available subtle => Outcome.ok subtle
  | CryptoGlobal.notCrypto => Outcome.panicked "Unexpected API"
  | CryptoGlobal.inaccessible => Outcome.err (UcanError.providerError "Could not access WebCrypto API")

/-- `WebCryptoRsaKeyMaterial::private_key`: `Ok` on the private key handle
when present, otherwise `anyhow!("No private key configured")`. -/
def WebCryptoRsaKeyMaterial.private_key {K : Type} (self : WebCryptoRsaKeyMaterial K) :
    Except UcanError K :=
  match self.privateKey with
  | some key => Except.ok key
  | none => Except.error UcanError.noPrivateKey

/-- `WebCryptoRsaKeyMaterial::generate`: builds the algorithm dictionary
(`name` = RSA_ALGORITHM, `modulusLength` = `key_size` or 2048,
`publicExponent` = the three bytes 0x01 0x00 0x01, `hash` = SHA-256),
requests a non-extractable key pair for uses `["sign", "verify"]`, and
wraps the resulting handles with the private key present. -/
def WebCryptoRsaKeyMaterial.generate {K : Type} (global : CryptoGlobal K)
    (key_size : Option Nat) :
    Outcome (WebCryptoRsaKeyMaterial K) × List (ProviderCall K) :=
  match get_subtle_crypto global with
  | Outcome.err e => (Outcome.err e, [])
  | Outcome.panicked m => (Outcome.panicked m, [])
  | Outcome.ok subtle_crypto =>
    let algorithm : GenAlgorithm :=
      { name := RSA_ALGORITHM
        modulusLength := key_size.getD 2048
        publicExponent := [0x01, 0x00, 0x01]
        hash := "SHA-256" }
    let uses : List String := ["sign", "verify"]
    let calls := [ProviderCall.generateKeyCall algorithm false uses]
    match subtle_crypto.generate_key algorithm false uses with
    | ProviderResult.syncFault e => (Outcome.err (UcanError.providerError e), calls)
    | ProviderResult.asyncFault e => (Outcome.err (UcanError.providerError e), calls)
    | ProviderResult.success pair =>
      match pair.publicKeyProp with
      | Except.error e => (Outcome.err (UcanError.providerError e), calls)
      | Except.ok public_key =>
        match pair.privateKeyProp with
        | Except.error e => (Outcome.err (UcanError.providerError e), calls)
        | Except.ok private_key =>
          (Outcome.ok ⟨public_key, some private_key⟩, calls)

/-- `KeyMaterial::get_jwt_algorithm_name for WebCryptoRsaKeyMaterial`:
`RSA_ALGORITHM.into()`. -/
def WebCryptoRsaKeyMaterial.get_jwt_algorithm_name {K : Type}
    (_self : WebCryptoRsaKeyMaterial K) : String :=
  RSA_ALGORITHM

/-- `KeyMaterial::get_did for WebCryptoRsaKeyMaterial`: export the public
key handle as SPKI bytes — with `expect` (panic), not `?`, on a throwing
export call, a rejecting promise, or a non-ArrayBuffer result — then parse
the DER (typed error via `?` on failure) and derive the identifier through
`RsaKeyMaterial(public_key, None).get_did()`. -/
def WebCryptoRsaKeyMaterial.get_did {K : Type} (self : WebCryptoRsaKeyMaterial K)
    (global : CryptoGlobal K) : Outcome String × List (ProviderCall K) :=
  let public_key := self.publicKey
  match get_subtle_crypto global with
  | Outcome.err e => (Outcome.err e, [])
  | Outcome.panicked m => (Outcome.panicked m, [])
  | Outcome.ok subtle_crypto =>
    let calls := [ProviderCall.exportKeyCall "spki" public_key]
    match subtle_crypto.export_key "spki" public_key with
    | ProviderResult.syncFault _ => (Outcome.panicked "Could not access key extraction API", calls)
    | ProviderResult.asyncFault _ => (Outcome.panicked "Failed to extract public key bytes", calls)
    | ProviderResult.success (ExportValue.notArrayBuffer _) =>
      (Outcome.panicked "Bytes were not an ArrayBuffer", calls)
    | ProviderResult.success (ExportValue.arrayBuffer public_key_bytes) =>
      match from_public_key_der public_key_bytes with
      | Except.error e => (Outcome.err (UcanError.encodingError e), calls)
      | Except.ok pk => (Outcome.ok (RsaKeyMaterial.get_did pk), calls)

/-- `KeyMaterial::sign for WebCryptoRsaKeyMaterial`: first resolves the
private key handle (`self.private_key()?`), then the SubtleCrypto handle,
builds the algorithm dictionary (`name` = RSA_ALGORITHM, `saltLength` =
128) and delegates to the provider's sign. -/
def WebCryptoRsaKeyMaterial.sign {K : Type} (self : WebCryptoRsaKeyMaterial K)
    (global : CryptoGlobal K) (payload : List Nat) :
    Outcome (List Nat) × List (ProviderCall K) :=
  match self.private_key with
  | Except.error e => (Outcome.err e, [])
  | Except.ok key =>
    match get_subtle_crypto global with
    | Outcome.err e => (Outcome.err e, [])
    | Outcome.panicked m => (Outcome.panicked m, [])
    | Outcome.ok subtle_crypto =>
      let algorithm : SignAlgorithm := { name := RSA_ALGORITHM, saltLength := 128 }
      let calls := [ProviderCall.signCall algorithm key payload]
      match subtle_crypto.sign algorithm key payload with
      | ProviderResult.syncFault e => (Outcome.err (UcanError.providerError e), calls)
      | ProviderResult.asyncFault e => (Outcome.err (UcanError.providerError e), calls)
      | ProviderResult.success result => (Outcome.ok result, calls)

/-- `KeyMaterial::verify for WebCryptoRsaKeyMaterial`: uses the public key
handle (`&self.0`), builds the same algorithm dictionary as `sign`, hands
the provider signature-then-payload, requires the resolved value to be a
JS Boolean (`dyn_into`, typed error otherwise), and maps a falsy result to
`anyhow!("Could not verify signature")`. -/
def WebCryptoRsaKeyMaterial.verify {K : Type} (self : WebCryptoRsaKeyMaterial K)
    (global : CryptoGlobal K) (payload : List Nat) (signature : List Nat) :
    Outcome Unit × List (ProviderCall K) :=
  let key := self.publicKey
  match get_subtle_crypto global with
  | Outcome.err e => (Outcome.err e, [])
  | Outcome.panicked m => (Outcome.panicked m, [])
  | Outcome.ok subtle_crypto =>
    let algorithm : SignAlgorithm := { name := RSA_ALGORITHM, saltLength := 128 }
    let calls := [ProviderCall.verifyCall algorithm key signature payload]
    match subtle_crypto.verify algorithm key signature payload with
    | ProviderResult.syncFault e => (Outcome.err (UcanError.providerError e), calls)
    | ProviderResult.asyncFault e => (Outcome.err (UcanError.providerError e), calls)
    | ProviderResult.success (VerifyValue.notBoolean e) =>
      (Outcome.err (UcanError.providerError e), calls)
    | ProviderResult.success (VerifyValue.jsBoolean valid) =>
      match valid with
      | true => (Outcome.ok (), calls)
      | false => (Outcome.err UcanError.verificationFailed, calls)

/-- One invocation of a `KeyMaterial` trait operation, with its
arguments. -/
inductive Op where
  | algNameOp
  | didOp
  | signDataOp (payload : List Nat)
  | verifyDataOp (payload : List Nat) (signature : List Nat)
  deriving DecidableEq, Repr

/-- The heterogeneous result of one trait operation. -/
inductive OpResult where
  | nameResult (s : String)
  | didResult (r : Outcome String)
  | signResult (r : Outcome (List Nat))
  | verifyResult (r : Outcome Unit)
  deriving DecidableEq, Repr

/-- Executes one trait operation on an instance.  All four trait methods
take `&self` (an immutable borrow), so the struct fields after the call
are exactly those before it; the step returns the operation's result
together with the instance the borrow hands back. -/
def runOp {K : Type} (global : CryptoGlobal K) (self : WebCryptoRsaKeyMaterial K) :
    Op → OpResult × WebCryptoRsaKeyMaterial K
  | Op.algNameOp => (OpResult.nameResult self.get_jwt_algorithm_name, self)
  | Op.didOp => (OpResult.didResult (self.get_did global).1, self)
  | Op.signDataOp payload => (OpResult.signResult (self.sign global payload).1, self)
  | Op.verifyDataOp payload signature =>
    (OpResult.verifyResult (self.verify global payload signature).1, self)

/-- Runs a sequence of trait operations in order, threading the instance
through, and returns the final instance. -/
def runOps {K : Type} (global : CryptoGlobal K) (self : WebCryptoRsaKeyMaterial K) :
    List Op → WebCryptoRsaKeyMaterial K
  | [] => self
  | op :: ops => runOps global (runOp global self op).2 ops

/-- A concrete well-formed DER input for the modelled parser:
modulus 5, exponent 3. -/
def demoDer : List Nat := [0x30, 0x02, 0x01, 0x05, 0x02, 0x01, 0x03]

/-- A concrete well-behaved provider over `Nat` key handles: signatures
prepend a `0` byte to the payload and verification checks exactly that
shape. -/
def demoSubtle : SubtleCrypto Nat where
  generate_key := fun _ _ _ =>
    ProviderResult.success { publicKeyProp := Except.ok 10, privateKeyProp := Except.ok 11 }
  export_key := fun _ _ => ProviderResult.success (ExportValue.arrayBuffer demoDer)
  sign := fun _ _ payload => ProviderResult.success (0 :: payload)
  verify := fun _ _ signature payload =>
    ProviderResult.success (VerifyValue.jsBoolean (signature == 0 :: payload))

/-- Ambient global state exposing `demoSubtle`. -/
def demoGlobal : CryptoGlobal Nat := CryptoGlobal.available demoSubtle

/-- A concrete instance holding both handles. -/
def demoKeyMaterial : WebCryptoRsaKeyMaterial Nat := ⟨10, some 11⟩

/-- A concrete verify-only instance (no private key handle). -/
def verifyOnlyKeyMaterial : WebCryptoRsaKeyMaterial Nat := ⟨10, none⟩

/-- A provider whose export call throws synchronously. -/
def failingExportSubtle : SubtleCrypto Nat :=
  { demoSubtle with export_key := fun _ _ => ProviderResult.syncFault "export threw" }

/-- Ambient global state exposing `failingExportSubtle`. -/
def failingExportGlobal : CryptoGlobal Nat := CryptoGlobal.available failingExportSubtle

/-- A provider exporting bytes that do not parse as an RSA public key. -/
def badDerSubtle : SubtleCrypto Nat :=
  { demoSubtle with export_key := fun _ _ => ProviderResult.success (ExportValue.arrayBuffer [0x00]) }

/-- Helper: whatever the environment, the provider-call trace of `sign` is
either empty or the single sign call with the fixed algorithm dictionary,
the resolved private key handle and the payload. -/
theorem sign_calls_shape {K : Type} (self : WebCryptoRsaKeyMaterial K)
    (global : CryptoGlobal K) (payload : List Nat) :
    (self.sign global payload).2 = []
    ∨ ∃ key, self.privateKey = some key ∧
        (self.sign global payload).2
          = [ProviderCall.signCall { name := RSA_ALGORITHM, saltLength := 128 } key payload] := by
  rcases self with ⟨pub, opriv⟩
  cases opriv with
  | none => left; rfl
  | some key =>
    cases global with
    | inaccessible => left; rfl
    | notCrypto => left; rfl
    | available subtle =>
      right
      refine ⟨key, rfl, ?_⟩
      rcases hs : subtle.sign { name := RSA_ALGORITHM, saltLength := 128 } key payload
          with v | e | e <;>
        simp [WebCryptoRsaKeyMaterial.sign, WebCryptoRsaKeyMaterial.private_key,
          get_subtle_crypto, hs]

/-- Helper: whatever the environment, the provider-call trace of `verify`
is either empty or the single verify call with the fixed algorithm
dictionary, the public key handle, the signature and the payload. -/
theorem verify_calls_shape {K : Type} (self : WebCryptoRsaKeyMaterial K)
    (global : CryptoGlobal K) (payload signature : List Nat) :
    (self.verify global payload signature).2 = []
    ∨ (self.verify global payload signature).2
        = [ProviderCall.verifyCall { name := RSA_ALGORITHM, saltLength := 128 }
            self.publicKey signature payload] := by
  cases global with
  | inaccessible => left; rfl
  | notCrypto => left; rfl
  | available subtle =>
    right
    rcases hv : subtle.verify { name := RSA_ALGORITHM, saltLength := 128 } self.publicKey
        signature payload with v | e | e
    · rcases v with b | d
      · cases b <;> simp [WebCryptoRsaKeyMaterial.verify, get_subtle_crypto, hv]
      · simp [WebCryptoRsaKeyMaterial.verify, get_subtle_crypto, hv]
    · simp [WebCryptoRsaKeyMaterial.verify, get_subtle_crypto, hv]
    · simp [WebCryptoRsaKeyMaterial.verify, get_subtle_crypto, hv]

/-- C1: for every instance constructed without a private key handle,
`sign` fails with the no-private-key error for every payload and every
ambient environment, and its provider-call trace is empty — the provider's
signing operation is never invoked on a verify-only instance. -/
theorem sign_without_private_key_fails_before_provider {K : Type}
    (self : WebCryptoRsaKeyMaterial K) (global : CryptoGlobal K) (payload : List Nat)
    (h : self.privateKey = none) :
    self.sign global payload = (Outcome.err UcanError.noPrivateKey, []) := by
  simp [WebCryptoRsaKeyMaterial.sign, WebCryptoRsaKeyMaterial.private_key, h]

/-- Witness for C1 at a concrete verify-only instance and payload. -/
theorem sign_without_private_key_fails_before_provider_witness :
    verifyOnlyKeyMaterial.privateKey = none
    ∧ verifyOnlyKeyMaterial.sign demoGlobal [0xde, 0xad, 0xbe, 0xef]
        = (Outcome.err UcanError.noPrivateKey, []) :=
  ⟨rfl, sign_without_private_key_fails_before_provider verifyOnlyKeyMaterial demoGlobal
    [0xde, 0xad, 0xbe, 0xef] rfl⟩

/-- C2: when the provider resolves the verification call to the JS boolean
`false` ("signature does not match"), `verify` fails with exactly the
verification-failed error kind, which is distinct from every
provider-fault error. -/
theorem verify_mismatch_is_verificationFailed {K : Type}
    (self : WebCryptoRsaKeyMaterial K) (subtle : SubtleCrypto K)
    (payload signature : List Nat)
    (h : subtle.verify { name := RSA_ALGORITHM, saltLength := 128 } self.publicKey
        signature payload = ProviderResult.success (VerifyValue.jsBoolean false)) :
    (self.verify (CryptoGlobal.available subtle) payload signature).1
      = Outcome.err UcanError.verificationFailed
    ∧ ∀ d : String, UcanError.verificationFailed ≠ UcanError.providerError d := by
  constructor
  · simp [WebCryptoRsaKeyMaterial.verify, get_subtle_crypto, h]
  · intro d hc
    exact UcanError.noConfusion hc

/-- Witness for C2: the demo provider rejects a flipped signature. -/
theorem verify_mismatch_is_verificationFailed_witness :
    (demoKeyMaterial.verify (CryptoGlobal.available demoSubtle) [1] [9]).1
      = Outcome.err UcanError.verificationFailed
    ∧ ∀ d : String, UcanError.verificationFailed ≠ UcanError.providerError d :=
  verify_mismatch_is_verificationFailed demoKeyMaterial demoSubtle [1] [9] rfl

/-- C8: `get_did` and `verify` read only the public key handle: on a
verify-only instance they return exactly the same result and trace as on a
full instance with the same public key handle, whatever the private key
handle holds. -/
theorem get_did_and_verify_ignore_private_key {K : Type} (pub : K) (priv : Option K)
    (global : CryptoGlobal K) (payload signature : List Nat) :
    WebCryptoRsaKeyMaterial.get_did ⟨pub, priv⟩ global
      = WebCryptoRsaKeyMaterial.get_did ⟨pub, none⟩ global
    ∧ WebCryptoRsaKeyMaterial.verify ⟨pub, priv⟩ global payload signature
      = WebCryptoRsaKeyMaterial.verify ⟨pub, none⟩ global payload signature :=
  ⟨rfl, rfl⟩

/-- C9: no trait operation mutates the public or private key handle; after
any sequence of operations in any order the instance's fields are those it
was constructed with. -/
theorem operations_never_mutate_handles {K : Type} (self : WebCryptoRsaKeyMaterial K)
    (global : CryptoGlobal K) (ops : List Op) :
    (runOps global self ops).publicKey = self.publicKey
    ∧ (runOps global self ops).privateKey = self.privateKey := by
  induction ops generalizing self with
  | nil => exact ⟨rfl, rfl⟩
  | cons op ops ih => cases op <;> exact ih self

/-- C3 counterexample: at a concrete instance whose provider export call
throws, `get_did` panics (the source uses `expect`, not `?`, on the export
path) instead of returning a typed `ProviderError` — so not every failure
of `get_did` is a typed result. -/
theorem get_did_export_fault_panics :
    (demoKeyMaterial.get_did failingExportGlobal).1
      = Outcome.panicked "Could not access key extraction API" := rfl

/-- C3 as amended: an unreachable WebCrypto API surfaces as a typed
provider error; public-key bytes that do not parse as a valid RSA public
key surface as a typed encoding error (never a default or partial
identifier); but a provider export failure — a throwing export call, a
rejecting promise, or a non-ArrayBuffer result — makes `get_did` panic
with a fixed message rather than return a typed error. -/
theorem get_did_failure_taxonomy {K : Type} (self : WebCryptoRsaKeyMaterial K)
    (subtle : SubtleCrypto K) :
    (self.get_did CryptoGlobal.inaccessible
       = (Outcome.err (UcanError.providerError "Could not access WebCrypto API"), []))
    ∧ (∀ (bytes : List Nat) (e : String),
        subtle.export_key "spki" self.publicKey
            = ProviderResult.success (ExportValue.arrayBuffer bytes) →
        from_public_key_der bytes = Except.error e →
        (self.get_did (CryptoGlobal.available subtle)).1
          = Outcome.err (UcanError.encodingError e))
    ∧ (∀ d : String,
        subtle.export_key "spki" self.publicKey = ProviderResult.syncFault d →
        (self.get_did (CryptoGlobal.available subtle)).1
          = Outcome.panicked "Could not access key extraction API")
    ∧ (∀ d : String,
        subtle.export_key "spki" self.publicKey = ProviderResult.asyncFault d →
        (self.get_did (CryptoGlobal.available subtle)).1
          = Outcome.panicked "Failed to extract public key bytes")
    ∧ (∀ d : String,
        subtle.export_key "spki" self.publicKey
            = ProviderResult.success (ExportValue.notArrayBuffer d) →
        (self.get_did (CryptoGlobal.available subtle)).1
          = Outcome.panicked "Bytes were not an ArrayBuffer") := by
  refine ⟨rfl, ?_, ?_, ?_, ?_⟩
  · intro bytes e hexp hder
    simp [WebCryptoRsaKeyMaterial.get_did, get_subtle_crypto, hexp, hder]
  · intro d hexp
    simp [WebCryptoRsaKeyMaterial.get_did, get_subtle_crypto, hexp]
  · intro d hexp
    simp [WebCryptoRsaKeyMaterial.get_did, get_subtle_crypto, hexp]
  · intro d hexp
    simp [WebCryptoRsaKeyMaterial.get_did, get_subtle_crypto, hexp]

/-- Witness for the amended C3: concrete encoding-error and panic cases. -/
theorem get_did_failure_taxonomy_witness :
    (demoKeyMaterial.get_did (CryptoGlobal.available badDerSubtle)).1
      = Outcome.err (UcanError.encodingError "malformed RSA public key")
    ∧ (demoKeyMaterial.get_did (CryptoGlobal.available failingExportSubtle)).1
        = Outcome.panicked "Could not access key extraction API" :=
  ⟨(get_did_failure_taxonomy demoKeyMaterial badDerSubtle).2.1 [0x00]
      "malformed RSA public key" rfl rfl,
    (get_did_failure_taxonomy demoKeyMaterial failingExportSubtle).2.2.1
      "export threw" rfl⟩

/-- C5: identifier derivation is a deterministic function of the exported
public key bytes alone — two instances (possibly distinct, under possibly
distinct providers) whose public key handles export bit-identical bytes
yield identical `get_did` results. -/
theorem get_did_deterministic {K : Type} (a b : WebCryptoRsaKeyMaterial K)
    (sa sb : SubtleCrypto K) (bytes : List Nat)
    (ha : sa.export_key "spki" a.publicKey
        = ProviderResult.success (ExportValue.arrayBuffer bytes))
    (hb : sb.export_key "spki" b.publicKey
        = ProviderResult.success (ExportValue.arrayBuffer bytes)) :
    (a.get_did (CryptoGlobal.available sa)).1
      = (b.get_did (CryptoGlobal.available sb)).1 := by
  simp only [WebCryptoRsaKeyMaterial.get_did, get_subtle_crypto, ha, hb]
  rcases from_public_key_der bytes with e | pk <;> rfl

/-- Witness for C5: two distinct instances wrapping distinct handles whose
exports agree produce the same identifier string. -/
theorem get_did_deterministic_witness :
    (demoKeyMaterial.get_did (CryptoGlobal.available demoSubtle)).1
      = (WebCryptoRsaKeyMaterial.get_did ⟨20, none⟩ (CryptoGlobal.available demoSubtle)).1 :=
  get_did_deterministic demoKeyMaterial ⟨20, none⟩ demoSubtle demoSubtle demoDer rfl rfl

/-- Helper: whenever the SubtleCrypto handle resolves, `generate` issues
exactly one provider call, carrying the algorithm dictionary the source
builds. -/
theorem generate_calls {K : Type} (global : CryptoGlobal K) (subtle : SubtleCrypto K)
    (key_size : Option Nat) (h : get_subtle_crypto global = Outcome.ok subtle) :
    (WebCryptoRsaKeyMaterial.generate global key_size).2
      = [ProviderCall.generateKeyCall
          { name := RSA_ALGORITHM
            modulusLength := key_size.getD 2048
            publicExponent := [0x01, 0x00, 0x01]
            hash := "SHA-256" }
          false ["sign", "verify"]] := by
  simp only [WebCryptoRsaKeyMaterial.generate, h]
  rcases hg : subtle.generate_key
      { name := RSA_ALGORITHM
        modulusLength := key_size.getD 2048
        publicExponent := [0x01, 0x00, 0x01]
        hash := "SHA-256" } false ["sign", "verify"] with ⟨pp, vp⟩ | e | e
  · rcases pp with ep | kp <;> rcases vp with ev | kv <;> simp [hg]
  · simp [hg]
  · simp [hg]

/-- C6: whenever the WebCrypto handle is reachable, `generate` requests
key-pair generation with modulus length `key_size` when supplied and 2048
when unspecified, public exponent bytes 0x01 0x00 0x01 (the big-endian
encoding of 65537), digest SHA-256, non-extractable, and allowed uses
exactly `["sign", "verify"]` — no encrypt/decrypt capability. -/
theorem generate_requests_fixed_parameters {K : Type} (global : CryptoGlobal K)
    (subtle : SubtleCrypto K) (key_size : Option Nat)
    (h : get_subtle_crypto global = Outcome.ok subtle) :
    (WebCryptoRsaKeyMaterial.generate global key_size).2
      = [ProviderCall.generateKeyCall
          { name := RSA_ALGORITHM
            modulusLength := match key_size with | some bits => bits | none => 2048
            publicExponent := [0x01, 0x00, 0x01]
            hash := "SHA-256" }
          false ["sign", "verify"]]
    ∧ beBytesToNat [0x01, 0x00, 0x01] = 65537 := by
  refine ⟨?_, by decide⟩
  rw [generate_calls global subtle key_size h]
  cases key_size <;> rfl

/-- Witness for C6, once with an explicit key size and once without. -/
theorem generate_requests_fixed_parameters_witness :
    ((WebCryptoRsaKeyMaterial.generate demoGlobal (some 4096)).2
        = [ProviderCall.generateKeyCall
            { name := RSA_ALGORITHM, modulusLength := 4096,
              publicExponent := [0x01, 0x00, 0x01], hash := "SHA-256" }
            false ["sign", "verify"]]
      ∧ beBytesToNat [0x01, 0x00, 0x01] = 65537)
    ∧ ((WebCryptoRsaKeyMaterial.generate demoGlobal none).2
        = [ProviderCall.generateKeyCall
            { name := RSA_ALGORITHM, modulusLength := 2048,
              publicExponent := [0x01, 0x00, 0x01], hash := "SHA-256" }
            false ["sign", "verify"]]
      ∧ beBytesToNat [0x01, 0x00, 0x01] = 65537) :=
  ⟨generate_requests_fixed_parameters demoGlobal demoSubtle (some 4096) rfl,
    generate_requests_fixed_parameters demoGlobal demoSubtle none rfl⟩

/-- C7: `get_jwt_algorithm_name` always returns the fixed literal
`RSA_ALGORITHM` (a pure total function), and every provider call issued by
`sign` and by `verify` carries the identical algorithm dictionary with
that same name and salt length 128. -/
theorem algorithm_name_and_parameters_agree {K : Type}
    (self : WebCryptoRsaKeyMaterial K) (global : CryptoGlobal K)
    (payload signature : List Nat) (priv : K) (c c' : ProviderCall K)
    (hpriv : self.privateKey = some priv)
    (hc : c ∈ (self.sign global payload).2)
    (hc' : c' ∈ (self.verify global payload signature).2) :
    self.get_jwt_algorithm_name = RSA_ALGORITHM
    ∧ c = ProviderCall.signCall { name := RSA_ALGORITHM, saltLength := 128 } priv payload
    ∧ c' = ProviderCall.verifyCall { name := RSA_ALGORITHM, saltLength := 128 }
        self.publicKey signature payload := by
  refine ⟨rfl, ?_, ?_⟩
  · rcases sign_calls_shape self global payload with hs | ⟨key, hkey, hs⟩
    · rw [hs] at hc
      cases hc
    · rw [hpriv] at hkey
      injection hkey with hk
      subst hk
      rw [hs] at hc
      simpa using hc
  · rcases verify_calls_shape self global payload signature with hv | hv
    · rw [hv] at hc'
      cases hc'
    · rw [hv] at hc'
      simpa using hc'

/-- Witness for C7 at concrete calls of the demo instance. -/
theorem algorithm_name_and_parameters_agree_witness :
    demoKeyMaterial.get_jwt_algorithm_name = RSA_ALGORITHM
    ∧ ProviderCall.signCall { name := RSA_ALGORITHM, saltLength := 128 } 11 [1]
        = ProviderCall.signCall { name := RSA_ALGORITHM, saltLength := 128 } 11 [1]
    ∧ ProviderCall.verifyCall { name := RSA_ALGORITHM, saltLength := 128 } 10 [9] [1]
        = ProviderCall.verifyCall { name := RSA_ALGORITHM, saltLength := 128 } 10 [9] [1] :=
  algorithm_name_and_parameters_agree demoKeyMaterial demoGlobal [1] [9] 11
    (ProviderCall.signCall { name := RSA_ALGORITHM, saltLength := 128 } 11 [1])
    (ProviderCall.verifyCall { name := RSA_ALGORITHM, saltLength := 128 } 10 [9] [1])
    rfl (by decide) (by decide)

/-- Helper: with a private key handle present, `sign` never produces the
no-private-key error, whatever the environment. -/
theorem sign_with_key_not_noPrivateKey {K : Type} (self : WebCryptoRsaKeyMaterial K)
    (g : CryptoGlobal K) (payload : List Nat) (priv : K)
    (hpriv : self.privateKey = some priv) :
    (self.sign g payload).1 ≠ Outcome.err UcanError.noPrivateKey := by
  cases g with
  | inaccessible =>
    simp [WebCryptoRsaKeyMaterial.sign, WebCryptoRsaKeyMaterial.private_key, hpriv,
      get_subtle_crypto]
  | notCrypto =>
    simp [WebCryptoRsaKeyMaterial.sign, WebCryptoRsaKeyMaterial.private_key, hpriv,
      get_subtle_crypto]
  | available subtle =>
    rcases hs : subtle.sign { name := RSA_ALGORITHM, saltLength := 128 } priv payload
        with v | e | e <;>
      simp [WebCryptoRsaKeyMaterial.sign, WebCryptoRsaKeyMaterial.private_key, hpriv,
        get_subtle_crypto, hs]

/-- C10: whenever `generate` succeeds, the returned instance holds a
private key handle, so it is never verify-only and its `sign` never fails
with the no-private-key error in any environment. -/
theorem generate_success_has_private_key {K : Type} (global g : CryptoGlobal K)
    (key_size : Option Nat) (inst : WebCryptoRsaKeyMaterial K)
    (calls : List (ProviderCall K)) (payload : List Nat)
    (h : WebCryptoRsaKeyMaterial.generate global key_size = (Outcome.ok inst, calls)) :
    inst.privateKey.isSome = true
    ∧ (inst.sign g payload).1 ≠ Outcome.err UcanError.noPrivateKey := by
  have hsome : ∃ k, inst.privateKey = some k := by
    cases global with
    | inaccessible =>
      exact absurd h (by simp [WebCryptoRsaKeyMaterial.generate, get_subtle_crypto])
    | notCrypto =>
      exact absurd h (by simp [WebCryptoRsaKeyMaterial.generate, get_subtle_crypto])
    | available subtle =>
      rcases hg : subtle.generate_key
          { name := RSA_ALGORITHM
            modulusLength := key_size.getD 2048
            publicExponent := [0x01, 0x00, 0x01]
            hash := "SHA-256" } false ["sign", "verify"] with ⟨pp, vp⟩ | e | e
      · rcases pp with ep | kp
        · exact absurd h
            (by simp [WebCryptoRsaKeyMaterial.generate, get_subtle_crypto, hg])
        · rcases vp with ev | kv
          · exact absurd h
              (by simp [WebCryptoRsaKeyMaterial.generate, get_subtle_crypto, hg])
          · refine ⟨kv, ?_⟩
            have hinst : Outcome.ok (⟨kp, some kv⟩ : WebCryptoRsaKeyMaterial K)
                = Outcome.ok inst := by
              have := congrArg Prod.fst h
              simpa [WebCryptoRsaKeyMaterial.generate, get_subtle_crypto, hg] using this
            injection hinst with hinst
            rw [← hinst]
      · exact absurd h
          (by simp [WebCryptoRsaKeyMaterial.generate, get_subtle_crypto, hg])
      · exact absurd h
          (by simp [WebCryptoRsaKeyMaterial.generate, get_subtle_crypto, hg])
  rcases hsome with ⟨k, hk⟩
  exact ⟨by simp [hk], sign_with_key_not_noPrivateKey inst g payload k hk⟩

/-- Witness for C10: the demo provider's generated instance. -/
theorem generate_success_has_private_key_witness :
    (⟨10, some 11⟩ : WebCryptoRsaKeyMaterial Nat).privateKey.isSome = true
    ∧ ((⟨10, some 11⟩ : WebCryptoRsaKeyMaterial Nat).sign demoGlobal [1]).1
        ≠ Outcome.err UcanError.noPrivateKey :=
  generate_success_has_private_key demoGlobal demoGlobal none ⟨10, some 11⟩
    [ProviderCall.generateKeyCall
      { name := RSA_ALGORITHM, modulusLength := 2048,
        publicExponent := [0x01, 0x00, 0x01], hash := "SHA-256" }
      false ["sign", "verify"]]
    [1] rfl

/-- C4: round-trip — for an instance holding a private key, under a
provider for which every signature its sign operation produces is accepted
by its verify operation for the matching key pair (the fixed RSA-PSS
SHA-256 scheme implemented correctly), verifying the payload against the
signature returned by `sign` succeeds. -/
theorem verify_of_sign_round_trip {K : Type} (self : WebCryptoRsaKeyMaterial K)
    (subtle : SubtleCrypto K) (priv : K) (payload signature : List Nat)
    (hpriv : self.privateKey = some priv)
    (hsign : (self.sign (CryptoGlobal.available subtle) payload).1
        = Outcome.ok signature)
    (hscheme : ∀ p s : List Nat,
        subtle.sign { name := RSA_ALGORITHM, saltLength := 128 } priv p
            = ProviderResult.success s →
        subtle.verify { name := RSA_ALGORITHM, saltLength := 128 } self.publicKey s p
            = ProviderResult.success (VerifyValue.jsBoolean true)) :
    (self.verify (CryptoGlobal.available subtle) payload signature).1
      = Outcome.ok () := by
  have hs : subtle.sign { name := RSA_ALGORITHM, saltLength := 128 } priv payload
      = ProviderResult.success signature := by
    rcases hcall : subtle.sign { name := RSA_ALGORITHM, saltLength := 128 } priv payload
        with v | e | e
    · simp [WebCryptoRsaKeyMaterial.sign, WebCryptoRsaKeyMaterial.private_key, hpriv,
        get_subtle_crypto, hcall] at hsign
      rw [hsign]
    · simp [WebCryptoRsaKeyMaterial.sign, WebCryptoRsaKeyMaterial.private_key, hpriv,
        get_subtle_crypto, hcall] at hsign
    · simp [WebCryptoRsaKeyMaterial.sign, WebCryptoRsaKeyMaterial.private_key, hpriv,
        get_subtle_crypto, hcall] at hsign
  have hv := hscheme payload signature hs
  simp [WebCryptoRsaKeyMaterial.verify, get_subtle_crypto, hv]

/-- Witness for C4: the demo provider signs by prepending a zero byte and
verifies exactly that shape. -/
theorem verify_of_sign_round_trip_witness :
    (demoKeyMaterial.verify (CryptoGlobal.available demoSubtle)
        [0xde, 0xad] [0, 0xde, 0xad]).1 = Outcome.ok () :=
  verify_of_sign_round_trip demoKeyMaterial demoSubtle 11 [0xde, 0xad] [0, 0xde, 0xad]
    rfl rfl
    (by
      intro p s hps
      cases hps
      simp [demoSubtle])
